import Mathlib

/-!
Verification of the VMC protocol sender (`vmc_sender.py`).

The development shallowly embeds the `VMCSender` class: each `send_*`
helper becomes a constructor of an abstract OSC message type, and
`send_tracking_data` becomes a function from a sender state, the current
time and an optional tracking snapshot to the list of messages emitted
during the call (paired with the resulting sender state).  Scalars are
modelled as rationals except the quaternion components, which involve
trigonometric functions and are modelled over the reals.
-/

namespace VMC

/-- An abstract OSC message, one constructor per `/VMC/Ext/...` address
used by `vmc_sender.py`. -/
inductive Msg
  | ok (available calibration_state tracking_status : ℤ)
  | time (t : ℚ)
  | rootPos (name : String) (px py pz qx qy qz qw : ℚ)
  | bonePos (name : String) (px py pz : ℚ) (qx qy qz qw : ℝ)
  | blendVal (name : String) (value : ℚ)
  | blendApply

/-- The OSC address string carried by a message. -/
def Msg.addr : Msg → String
  | .ok _ _ _ => "/VMC/Ext/OK"
  | .time _ => "/VMC/Ext/T"
  | .rootPos _ _ _ _ _ _ _ _ => "/VMC/Ext/Root/Pos"
  | .bonePos _ _ _ _ _ _ _ _ => "/VMC/Ext/Bone/Pos"
  | .blendVal _ _ => "/VMC/Ext/Blend/Val"
  | .blendApply => "/VMC/Ext/Blend/Apply"

/-- The `FaceInfo` snapshot fields read by `send_tracking_data`. -/
structure FaceInfo where
  success : Bool
  euler : Option (ℚ × ℚ × ℚ)
  translation : Option (ℚ × ℚ × ℚ)
  eye_state : Option (List (List ℚ))
  eye_blink : Option (ℚ × ℚ)
  current_features : Option (List (String × ℚ))

/-- The `VMCSender` object state: destination endpoint and session start
time (`__init__`, lines 46-50). -/
structure VMCSender where
  ip : String
  port : ℤ
  start_time : ℚ

/-- `send_blend_shape` (lines 52-54). -/
def send_blend_shape (name : String) (value : ℚ) : Msg :=
  .blendVal name value

/-- `send_blend_shape_apply` (lines 56-58). -/
def send_blend_shape_apply : Msg :=
  .blendApply

/-- `send_bone_transform` (lines 60-66). -/
def send_bone_transform (bone_name : String) (px py pz : ℚ) (qx qy qz qw : ℝ) : Msg :=
  .bonePos bone_name px py pz qx qy qz qw

/-- `send_available` (lines 68-70). -/
def send_available (available calibration_state tracking_status : ℤ) : Msg :=
  .ok available calibration_state tracking_status

/-- `send_time` (lines 72-74). -/
def send_time (time_val : ℚ) : Msg :=
  .time time_val

/-- `euler_to_quaternion` (lines 76-95): degrees to radians, then the
half-angle roll-pitch-yaw product. -/
noncomputable def euler_to_quaternion (pitch yaw roll : ℚ) : ℝ × ℝ × ℝ × ℝ :=
  let p : ℝ := (pitch : ℝ) * Real.pi / 180
  let y : ℝ := (yaw : ℝ) * Real.pi / 180
  let r : ℝ := (roll : ℝ) * Real.pi / 180
  let cr := Real.cos (r * 0.5)
  let sr := Real.sin (r * 0.5)
  let cp := Real.cos (p * 0.5)
  let sp := Real.sin (p * 0.5)
  let cy := Real.cos (y * 0.5)
  let sy := Real.sin (y * 0.5)
  (sr * cp * cy - cr * sp * sy,
   cr * sp * cy + sr * cp * sy,
   cr * cp * sy - sr * sp * cy,
   cr * cp * cy + sr * sp * sy)

/-- `send_root_transform` (lines 97-104): fixed neutral root. -/
def send_root_transform : Msg :=
  .rootPos "root" 0 0 0 0 0 0 1

/-- Normalized gaze offset `(offsetPx - 16) / 16.0` (lines 152-153,
246-247, 263-264). -/
def normalizeGaze (offsetPx : ℚ) : ℚ :=
  (offsetPx - 16) / 16

/-- Horizontal gaze degrees `max(-1, min(1, g)) * 15` (lines 155, 165). -/
def gazeDegH (offsetPx : ℚ) : ℚ :=
  max (-1) (min 1 (normalizeGaze offsetPx)) * 15

/-- Vertical gaze degrees `max(-1, min(1, g)) * 10` (lines 156, 166). -/
def gazeDegV (offsetPx : ℚ) : ℚ :=
  max (-1) (min 1 (normalizeGaze offsetPx)) * 10

/-- Head and neck bone messages (lines 121-142): emitted when `success`
and `euler` is present; translation defaults to zero when absent. -/
noncomputable def headMsgs (face : FaceInfo) : List Msg :=
  match face.euler with
  | some (pitch, yaw, roll) =>
    if face.success then
      let q := euler_to_quaternion (-pitch) (-yaw) roll
      let t : ℚ × ℚ × ℚ :=
        match face.translation with
        | some (t0, t1, t2) => (t0 / 1000, -t1 / 1000, t2 / 1000)
        | none => (0, 0, 0)
      let nq := euler_to_quaternion (-pitch * 0.3) (-yaw * 0.3) (roll * 0.3)
      [send_bone_transform "Head" t.1 t.2.1 t.2.2 q.1 q.2.1 q.2.2.1 q.2.2.2,
       send_bone_transform "Neck" (t.1 * 0.5) (t.2.1 * 0.5) (t.2.2 * 0.5)
         nq.1 nq.2.1 nq.2.2.1 nq.2.2.2]
    else []
  | none => []

/-- Eye gaze bone messages (lines 144-168): per-eye guard on entry
length, clamped gaze degrees, quaternion from `(vertical, horizontal, 0)`. -/
noncomputable def eyeBoneMsgs (face : FaceInfo) : List Msg :=
  match face.eye_state with
  | some eye_state =>
    if 2 ≤ eye_state.length then
      (let right_eye := eye_state.getD 0 []
       if 3 ≤ right_eye.length then
         let gaze_x_r := gazeDegH (right_eye.getD 2 0)
         let gaze_y_r := gazeDegV (right_eye.getD 1 0)
         let q := euler_to_quaternion gaze_y_r gaze_x_r 0
         [send_bone_transform "RightEye" 0 0 0 q.1 q.2.1 q.2.2.1 q.2.2.2]
       else []) ++
      (let left_eye := eye_state.getD 1 []
       if 3 ≤ left_eye.length then
         let gaze_x_l := gazeDegH (left_eye.getD 2 0)
         let gaze_y_l := gazeDegV (left_eye.getD 1 0)
         let q := euler_to_quaternion gaze_y_l gaze_x_l 0
         [send_bone_transform "LeftEye" 0 0 0 q.1 q.2.1 q.2.2.1 q.2.2.2]
       else [])
    else []
  | none => []

/-- Blink blend-shape messages (lines 170-185). -/
def blinkMsgs (face : FaceInfo) : List Msg :=
  match face.eye_blink with
  | some (br, bl) =>
    let right_blink := 1 - min 1 (max 0 br)
    let left_blink := 1 - min 1 (max 0 bl)
    [send_blend_shape "eyeBlinkRight" right_blink,
     send_blend_shape "eyeBlinkLeft" left_blink,
     send_blend_shape "Blink_R" right_blink,
     send_blend_shape "Blink_L" left_blink,
     send_blend_shape "Blink" ((right_blink + left_blink) / 2)]
  | none => []

/-- `mouth_open` block (lines 192-198); note the source sends `"A"`
twice. -/
def mouthOpenMsgs (features : List (String × ℚ)) : List Msg :=
  match features.lookup "mouth_open" with
  | some v =>
    let mouth_open := min 1 (max 0 v)
    [send_blend_shape "jawOpen" mouth_open,
     send_blend_shape "A" mouth_open,
     send_blend_shape "Aa" mouth_open,
     send_blend_shape "A" mouth_open]
  | none => []

/-- `mouth_wide` block (lines 200-207). -/
def mouthWideMsgs (features : List (String × ℚ)) : List Msg :=
  match features.lookup "mouth_wide" with
  | some mouth_wide =>
    if 0 < mouth_wide then
      [send_blend_shape "mouthSmileLeft" (min 1 mouth_wide),
       send_blend_shape "mouthSmileRight" (min 1 mouth_wide)]
    else
      [send_blend_shape "mouthFrownLeft" (min 1 (-mouth_wide)),
       send_blend_shape "mouthFrownRight" (min 1 (-mouth_wide))]
  | none => []

/-- `mouth_corner_updown_l` block (lines 210-215). -/
def mouthCornerLMsgs (features : List (String × ℚ)) : List Msg :=
  match features.lookup "mouth_corner_updown_l" with
  | some v =>
    if 0 < v then [send_blend_shape "mouthSmileLeft" (min 1 v)]
    else [send_blend_shape "mouthFrownLeft" (min 1 (-v))]
  | none => []

/-- `mouth_corner_updown_r` block (lines 217-222). -/
def mouthCornerRMsgs (features : List (String × ℚ)) : List Msg :=
  match features.lookup "mouth_corner_updown_r" with
  | some v =>
    if 0 < v then [send_blend_shape "mouthSmileRight" (min 1 v)]
    else [send_blend_shape "mouthFrownRight" (min 1 (-v))]
  | none => []

/-- `eyebrow_updown_l` block (lines 225-230). -/
def eyebrowLMsgs (features : List (String × ℚ)) : List Msg :=
  match features.lookup "eyebrow_updown_l" with
  | some v =>
    if 0 < v then [send_blend_shape "browInnerUp" (min 1 v)]
    else [send_blend_shape "browDownLeft" (min 1 (-v))]
  | none => []

/-- `eyebrow_updown_r` block (lines 232-237). -/
def eyebrowRMsgs (features : List (String × ℚ)) : List Msg :=
  match features.lookup "eyebrow_updown_r" with
  | some v =>
    if 0 < v then [send_blend_shape "browInnerUp" (min 1 v)]
    else [send_blend_shape "browDownRight" (min 1 (-v))]
  | none => []

/-- Facial-feature blend shapes (lines 187-237): the six independent
keyed blocks in source order. -/
def featureMsgs (face : FaceInfo) : List Msg :=
  match face.current_features with
  | some features =>
    mouthOpenMsgs features ++ mouthWideMsgs features ++
    mouthCornerLMsgs features ++ mouthCornerRMsgs features ++
    eyebrowLMsgs features ++ eyebrowRMsgs features
  | none => []

/-- Eye-gaze blend shapes (lines 239-275): per-eye guard, rectified
halves of the unclamped normalized offset, emitted under lower- and
upper-camel names. -/
def gazeBlendMsgs (face : FaceInfo) : List Msg :=
  match face.eye_state with
  | some eye_state =>
    if 2 ≤ eye_state.length then
      (let right_eye := eye_state.getD 0 []
       if 3 ≤ right_eye.length then
         let gaze_x_r := normalizeGaze (right_eye.getD 2 0)
         let gaze_y_r := normalizeGaze (right_eye.getD 1 0)
         [send_blend_shape "eyeLookOutRight" (max 0 gaze_x_r),
          send_blend_shape "eyeLookInRight" (max 0 (-gaze_x_r)),
          send_blend_shape "eyeLookUpRight" (max 0 (-gaze_y_r)),
          send_blend_shape "eyeLookDownRight" (max 0 gaze_y_r),
          send_blend_shape "EyeLookOutRight" (max 0 gaze_x_r),
          send_blend_shape "EyeLookInRight" (max 0 (-gaze_x_r)),
          send_blend_shape "EyeLookUpRight" (max 0 (-gaze_y_r)),
          send_blend_shape "EyeLookDownRight" (max 0 gaze_y_r)]
       else []) ++
      (let left_eye := eye_state.getD 1 []
       if 3 ≤ left_eye.length then
         let gaze_x_l := normalizeGaze (left_eye.getD 2 0)
         let gaze_y_l := normalizeGaze (left_eye.getD 1 0)
         [send_blend_shape "eyeLookInLeft" (max 0 gaze_x_l),
          send_blend_shape "eyeLookOutLeft" (max 0 (-gaze_x_l)),
          send_blend_shape "eyeLookUpLeft" (max 0 (-gaze_y_l)),
          send_blend_shape "eyeLookDownLeft" (max 0 gaze_y_l),
          send_blend_shape "EyeLookInLeft" (max 0 gaze_x_l),
          send_blend_shape "EyeLookOutLeft" (max 0 (-gaze_x_l)),
          send_blend_shape "EyeLookUpLeft" (max 0 (-gaze_y_l)),
          send_blend_shape "EyeLookDownLeft" (max 0 gaze_y_l)]
       else [])
    else []
  | none => []

/-- `send_tracking_data` (lines 106-278): the ordered emitted message
list of one call, together with the sender state after the call (the
method assigns no attribute, so the state is returned unchanged). -/
noncomputable def send_tracking_data (sender : VMCSender) (now : ℚ)
    (face : Option FaceInfo) : List Msg × VMCSender :=
  match face with
  | none => ([], sender)
  | some face =>
    (send_available (if face.success then 1 else 0) 3 1 ::
     send_time (now - sender.start_time) ::
     send_root_transform ::
     (headMsgs face ++ eyeBoneMsgs face ++ blinkMsgs face ++
      featureMsgs face ++ gazeBlendMsgs face ++ [send_blend_shape_apply]),
     sender)

/-- The `(name, weight)` payloads of the `/VMC/Ext/Blend/Val` messages
of a message list, in emission order. -/
def blendPairs (msgs : List Msg) : List (String × ℚ) :=
  msgs.filterMap fun m =>
    match m with
    | .blendVal name value => some (name, value)
    | _ => none

/-- The bone names of the `/VMC/Ext/Bone/Pos` messages of a message
list, in emission order. -/
def boneNames (msgs : List Msg) : List String :=
  msgs.filterMap fun m =>
    match m with
    | .bonePos name _ _ _ _ _ _ _ => some name
    | _ => none

/-- A sender built with the default constructor arguments. -/
def sender0 : VMCSender :=
  { ip := "127.0.0.1", port := 39539, start_time := 0 }

/-- The emission guard for eye `i` in the eye-bone block: `eye_state`
present with at least two entries and entry `i` of length at least 3
(lines 146, 149, 162). -/
def eyeBoneGuard (f : FaceInfo) (i : ℕ) : Prop :=
  ∃ es, f.eye_state = some es ∧ 2 ≤ es.length ∧ 3 ≤ (es.getD i []).length

/-- A snapshot whose right-eye horizontal pixel offset 48 drives the
normalized gaze to 2, past the upper bound. -/
def c1Face : FaceInfo :=
  { success := false, euler := none, translation := none,
    eye_state := some [[0, 16, 48, 1], [0, 16, 16, 1]],
    eye_blink := none, current_features := none }

/-- A snapshot whose eye-state pixel offsets all lie inside the
32-pixel window. -/
def c1wFace : FaceInfo :=
  { success := false, euler := none, translation := none,
    eye_state := some [[0, 16, 24, 1], [0, 8, 0, 1]],
    eye_blink := none, current_features := none }

/-- An unsuccessful snapshot with every optional field absent. -/
def c3Face : FaceInfo :=
  { success := false, euler := none, translation := none,
    eye_state := none, eye_blink := none, current_features := none }

/-- A snapshot whose right-eye entry has length 2 while the left-eye
entry has length 4. -/
def c4Face : FaceInfo :=
  { success := false, euler := none, translation := none,
    eye_state := some [[1, 16], [1, 16, 16, 1]],
    eye_blink := none, current_features := none }

/-- A snapshot with both eyes reported fully open. -/
def c5Face : FaceInfo :=
  { success := false, euler := none, translation := none,
    eye_state := none, eye_blink := some (1, 1), current_features := none }

/-- A snapshot whose only feature is `mouth_open = 1.5`. -/
def c6Face : FaceInfo :=
  { success := false, euler := none, translation := none,
    eye_state := none, eye_blink := none,
    current_features := some [("mouth_open", 3/2)] }

/-- A snapshot with both eyes reported fully open, used to probe the
non-negativity of emitted weights. -/
def c10Face : FaceInfo :=
  { success := false, euler := none, translation := none,
    eye_state := none, eye_blink := some (1, 1), current_features := none }


/-! ### Observation lemmas for `blendPairs` and `boneNames` -/

@[simp]
theorem blendPairs_nil : blendPairs [] = [] := rfl

@[simp]
theorem blendPairs_cons_blendVal (n : String) (v : ℚ) (l : List Msg) :
    blendPairs (Msg.blendVal n v :: l) = (n, v) :: blendPairs l := rfl

@[simp]
theorem blendPairs_cons_ok (a b c : ℤ) (l : List Msg) :
    blendPairs (Msg.ok a b c :: l) = blendPairs l := rfl

@[simp]
theorem blendPairs_cons_time (t : ℚ) (l : List Msg) :
    blendPairs (Msg.time t :: l) = blendPairs l := rfl

@[simp]
theorem blendPairs_cons_rootPos (n : String) (a b c d e g h : ℚ) (l : List Msg) :
    blendPairs (Msg.rootPos n a b c d e g h :: l) = blendPairs l := rfl

@[simp]
theorem blendPairs_cons_bonePos (n : String) (a b c : ℚ) (d e g h : ℝ) (l : List Msg) :
    blendPairs (Msg.bonePos n a b c d e g h :: l) = blendPairs l := rfl

@[simp]
theorem blendPairs_cons_blendApply (l : List Msg) :
    blendPairs (Msg.blendApply :: l) = blendPairs l := rfl

@[simp]
theorem blendPairs_append (l l' : List Msg) :
    blendPairs (l ++ l') = blendPairs l ++ blendPairs l' :=
  List.filterMap_append l l' _

@[simp]
theorem boneNames_nil : boneNames [] = [] := rfl

@[simp]
theorem boneNames_cons_blendVal (n : String) (v : ℚ) (l : List Msg) :
    boneNames (Msg.blendVal n v :: l) = boneNames l := rfl

@[simp]
theorem boneNames_cons_ok (a b c : ℤ) (l : List Msg) :
    boneNames (Msg.ok a b c :: l) = boneNames l := rfl

@[simp]
theorem boneNames_cons_time (t : ℚ) (l : List Msg) :
    boneNames (Msg.time t :: l) = boneNames l := rfl

@[simp]
theorem boneNames_cons_rootPos (n : String) (a b c d e g h : ℚ) (l : List Msg) :
    boneNames (Msg.rootPos n a b c d e g h :: l) = boneNames l := rfl

@[simp]
theorem boneNames_cons_bonePos (n : String) (a b c : ℚ) (d e g h : ℝ) (l : List Msg) :
    boneNames (Msg.bonePos n a b c d e g h :: l) = n :: boneNames l := rfl

@[simp]
theorem boneNames_cons_blendApply (l : List Msg) :
    boneNames (Msg.blendApply :: l) = boneNames l := rfl

@[simp]
theorem boneNames_append (l l' : List Msg) :
    boneNames (l ++ l') = boneNames l ++ boneNames l' :=
  List.filterMap_append l l' _
/-! ### Arithmetic bounds for emitted blend weights -/

theorem clamp01_nonneg (v : ℚ) : 0 ≤ min 1 (max 0 v) :=
  le_min zero_le_one (le_max_left 0 v)

theorem clamp01_le_one (v : ℚ) : min 1 (max 0 v) ≤ 1 :=
  min_le_left 1 (max 0 v)

theorem oneSub_clamp01_nonneg (v : ℚ) : 0 ≤ 1 - min 1 (max 0 v) := by
  have h := min_le_left (1 : ℚ) (max 0 v)
  linarith

theorem oneSub_clamp01_le_one (v : ℚ) : 1 - min 1 (max 0 v) ≤ 1 := by
  have h := clamp01_nonneg v
  linarith

/-! ### Per-block shape lemmas -/

theorem blendPairs_headMsgs (f : FaceInfo) : blendPairs (headMsgs f) = [] := by
  unfold headMsgs
  cases f.euler with
  | none => rfl
  | some e =>
    obtain ⟨p, y, r⟩ := e
    by_cases hs : f.success <;> simp [hs, send_bone_transform]

theorem blendPairs_eyeBoneMsgs (f : FaceInfo) : blendPairs (eyeBoneMsgs f) = [] := by
  unfold eyeBoneMsgs
  cases f.eye_state with
  | none => rfl
  | some es =>
    by_cases h2 : 2 ≤ es.length
    · simp only [if_pos h2]
      split_ifs <;> simp [send_bone_transform]
    · simp [if_neg h2]

theorem boneNames_blinkMsgs (f : FaceInfo) : boneNames (blinkMsgs f) = [] := by
  unfold blinkMsgs
  cases f.eye_blink with
  | none => rfl
  | some e =>
    obtain ⟨br, bl⟩ := e
    simp [send_blend_shape]

theorem boneNames_mouthOpenMsgs (features : List (String × ℚ)) :
    boneNames (mouthOpenMsgs features) = [] := by
  unfold mouthOpenMsgs
  cases features.lookup "mouth_open" with
  | none => rfl
  | some v => simp [send_blend_shape]

theorem boneNames_mouthWideMsgs (features : List (String × ℚ)) :
    boneNames (mouthWideMsgs features) = [] := by
  unfold mouthWideMsgs
  cases features.lookup "mouth_wide" with
  | none => rfl
  | some v => by_cases h : 0 < v <;> simp [h, send_blend_shape]

theorem boneNames_mouthCornerLMsgs (features : List (String × ℚ)) :
    boneNames (mouthCornerLMsgs features) = [] := by
  unfold mouthCornerLMsgs
  cases features.lookup "mouth_corner_updown_l" with
  | none => rfl
  | some v => by_cases h : 0 < v <;> simp [h, send_blend_shape]

theorem boneNames_mouthCornerRMsgs (features : List (String × ℚ)) :
    boneNames (mouthCornerRMsgs features) = [] := by
  unfold mouthCornerRMsgs
  cases features.lookup "mouth_corner_updown_r" with
  | none => rfl
  | some v => by_cases h : 0 < v <;> simp [h, send_blend_shape]

theorem boneNames_eyebrowLMsgs (features : List (String × ℚ)) :
    boneNames (eyebrowLMsgs features) = [] := by
  unfold eyebrowLMsgs
  cases features.lookup "eyebrow_updown_l" with
  | none => rfl
  | some v => by_cases h : 0 < v <;> simp [h, send_blend_shape]

theorem boneNames_eyebrowRMsgs (features : List (String × ℚ)) :
    boneNames (eyebrowRMsgs features) = [] := by
  unfold eyebrowRMsgs
  cases features.lookup "eyebrow_updown_r" with
  | none => rfl
  | some v => by_cases h : 0 < v <;> simp [h, send_blend_shape]

theorem boneNames_featureMsgs (f : FaceInfo) : boneNames (featureMsgs f) = [] := by
  unfold featureMsgs
  cases f.current_features with
  | none => rfl
  | some fs =>
    simp [boneNames_mouthOpenMsgs, boneNames_mouthWideMsgs, boneNames_mouthCornerLMsgs,
      boneNames_mouthCornerRMsgs, boneNames_eyebrowLMsgs, boneNames_eyebrowRMsgs]

theorem boneNames_gazeBlendMsgs (f : FaceInfo) : boneNames (gazeBlendMsgs f) = [] := by
  unfold gazeBlendMsgs
  cases f.eye_state with
  | none => rfl
  | some es =>
    by_cases h2 : 2 ≤ es.length
    · simp only [if_pos h2]
      split_ifs <;> simp [send_blend_shape]
    · simp [if_neg h2]

/-- The blend payloads of one call are exactly those of the blink,
feature and gaze blocks, in that order. -/
theorem blendPairs_send (s : VMCSender) (now : ℚ) (f : FaceInfo) :
    blendPairs (send_tracking_data s now (some f)).1 =
      blendPairs (blinkMsgs f) ++ (blendPairs (featureMsgs f) ++ blendPairs (gazeBlendMsgs f)) := by
  simp [send_tracking_data, send_available, send_time, send_root_transform,
    send_blend_shape_apply, blendPairs_headMsgs, blendPairs_eyeBoneMsgs]

/-- The bone names of one call are exactly those of the head and eye
bone blocks, in that order. -/
theorem boneNames_send (s : VMCSender) (now : ℚ) (f : FaceInfo) :
    boneNames (send_tracking_data s now (some f)).1 =
      boneNames (headMsgs f) ++ boneNames (eyeBoneMsgs f) := by
  simp [send_tracking_data, send_available, send_time, send_root_transform,
    send_blend_shape_apply, boneNames_blinkMsgs, boneNames_featureMsgs, boneNames_gazeBlendMsgs]

/-! ### Weight bounds per block -/

theorem blink_pairs_bounds (f : FaceInfo) :
    ∀ p ∈ blendPairs (blinkMsgs f), 0 ≤ p.2 ∧ p.2 ≤ 1 := by
  unfold blinkMsgs
  cases f.eye_blink with
  | none => simp
  | some e =>
    obtain ⟨br, bl⟩ := e
    intro p hp
    simp [send_blend_shape] at hp
    have hr0 := oneSub_clamp01_nonneg br
    have hr1 := oneSub_clamp01_le_one br
    have hl0 := oneSub_clamp01_nonneg bl
    have hl1 := oneSub_clamp01_le_one bl
    rcases hp with hp | hp | hp | hp | hp <;> subst hp <;>
      refine ⟨?_, ?_⟩ <;> dsimp only <;> linarith

theorem mouthOpen_pairs_bounds (features : List (String × ℚ)) :
    ∀ p ∈ blendPairs (mouthOpenMsgs features), 0 ≤ p.2 ∧ p.2 ≤ 1 := by
  unfold mouthOpenMsgs
  cases features.lookup "mouth_open" with
  | none => simp
  | some v =>
    intro p hp
    simp [send_blend_shape] at hp
    have h0 := clamp01_nonneg v
    have h1 := clamp01_le_one v
    rcases hp with hp | hp | hp | hp <;> subst hp <;> exact ⟨h0, h1⟩

theorem mouthWide_pairs_bounds (features : List (String × ℚ)) :
    ∀ p ∈ blendPairs (mouthWideMsgs features), 0 ≤ p.2 ∧ p.2 ≤ 1 := by
  unfold mouthWideMsgs
  cases features.lookup "mouth_wide" with
  | none => simp
  | some v =>
    by_cases h : 0 < v
    · intro p hp
      simp [h, send_blend_shape] at hp
      have h0 : 0 ≤ min 1 v := le_min zero_le_one h.le
      have h1 : min 1 v ≤ 1 := min_le_left 1 v
      rcases hp with hp | hp <;> subst hp <;> exact ⟨h0, h1⟩
    · intro p hp
      simp [h, send_blend_shape] at hp
      have hv : 0 ≤ -v := by linarith [not_lt.mp h]
      have h0 : 0 ≤ min 1 (-v) := le_min zero_le_one hv
      have h1 : min 1 (-v) ≤ 1 := min_le_left 1 (-v)
      rcases hp with hp | hp <;> subst hp <;> exact ⟨h0, h1⟩

theorem mouthCornerL_pairs_bounds (features : List (String × ℚ)) :
    ∀ p ∈ blendPairs (mouthCornerLMsgs features), 0 ≤ p.2 ∧ p.2 ≤ 1 := by
  unfold mouthCornerLMsgs
  cases features.lookup "mouth_corner_updown_l" with
  | none => simp
  | some v =>
    by_cases h : 0 < v <;> intro p hp <;> simp [h, send_blend_shape] at hp <;> subst hp
    · exact ⟨le_min zero_le_one h.le, min_le_left 1 v⟩
    · exact ⟨le_min zero_le_one (by linarith [not_lt.mp h]), min_le_left 1 (-v)⟩

theorem mouthCornerR_pairs_bounds (features : List (String × ℚ)) :
    ∀ p ∈ blendPairs (mouthCornerRMsgs features), 0 ≤ p.2 ∧ p.2 ≤ 1 := by
  unfold mouthCornerRMsgs
  cases features.lookup "mouth_corner_updown_r" with
  | none => simp
  | some v =>
    by_cases h : 0 < v <;> intro p hp <;> simp [h, send_blend_shape] at hp <;> subst hp
    · exact ⟨le_min zero_le_one h.le, min_le_left 1 v⟩
    · exact ⟨le_min zero_le_one (by linarith [not_lt.mp h]), min_le_left 1 (-v)⟩

theorem eyebrowL_pairs_bounds (features : List (String × ℚ)) :
    ∀ p ∈ blendPairs (eyebrowLMsgs features), 0 ≤ p.2 ∧ p.2 ≤ 1 := by
  unfold eyebrowLMsgs
  cases features.lookup "eyebrow_updown_l" with
  | none => simp
  | some v =>
    by_cases h : 0 < v <;> intro p hp <;> simp [h, send_blend_shape] at hp <;> subst hp
    · exact ⟨le_min zero_le_one h.le, min_le_left 1 v⟩
    · exact ⟨le_min zero_le_one (by linarith [not_lt.mp h]), min_le_left 1 (-v)⟩

theorem eyebrowR_pairs_bounds (features : List (String × ℚ)) :
    ∀ p ∈ blendPairs (eyebrowRMsgs features), 0 ≤ p.2 ∧ p.2 ≤ 1 := by
  unfold eyebrowRMsgs
  cases features.lookup "eyebrow_updown_r" with
  | none => simp
  | some v =>
    by_cases h : 0 < v <;> intro p hp <;> simp [h, send_blend_shape] at hp <;> subst hp
    · exact ⟨le_min zero_le_one h.le, min_le_left 1 v⟩
    · exact ⟨le_min zero_le_one (by linarith [not_lt.mp h]), min_le_left 1 (-v)⟩

theorem feature_pairs_bounds (f : FaceInfo) :
    ∀ p ∈ blendPairs (featureMsgs f), 0 ≤ p.2 ∧ p.2 ≤ 1 := by
  unfold featureMsgs
  cases f.current_features with
  | none => simp
  | some fs =>
    intro p hp
    simp only [blendPairs_append, List.mem_append] at hp
    rcases hp with ((((hp | hp) | hp) | hp) | hp) | hp
    · exact mouthOpen_pairs_bounds fs p hp
    · exact mouthWide_pairs_bounds fs p hp
    · exact mouthCornerL_pairs_bounds fs p hp
    · exact mouthCornerR_pairs_bounds fs p hp
    · exact eyebrowL_pairs_bounds fs p hp
    · exact eyebrowR_pairs_bounds fs p hp

theorem gaze_pairs_nonneg (f : FaceInfo) :
    ∀ p ∈ blendPairs (gazeBlendMsgs f), 0 ≤ p.2 := by
  unfold gazeBlendMsgs
  cases f.eye_state with
  | none => simp
  | some es =>
    by_cases h2 : 2 ≤ es.length
    · simp only [if_pos h2]
      intro p hp
      rw [blendPairs_append, List.mem_append] at hp
      rcases hp with hp | hp <;>
      split_ifs at hp with h3 <;>
      simp [send_blend_shape] at hp <;>
      rcases hp with hp | hp | hp | hp | hp | hp | hp | hp <;> subst hp <;>
        exact le_max_left 0 _
    · simp [if_neg h2]

theorem getD_mem_of_lt {α : Type} (l : List α) (n : ℕ) (d : α) (h : n < l.length) :
    l.getD n d ∈ l := by
  simp [List.getD_eq_getElem?_getD, List.getElem?_eq_getElem h]

/-- The normalized gaze offset lies in `[-1, 1]` when the pixel offset
lies in the 32-pixel eye window. -/
theorem normalizeGaze_bounds (x : ℚ) (h0 : 0 ≤ x) (h1 : x ≤ 32) :
    -1 ≤ normalizeGaze x ∧ normalizeGaze x ≤ 1 := by
  unfold normalizeGaze
  constructor
  · rw [le_div_iff₀ (by norm_num : (0:ℚ) < 16)]
    linarith
  · rw [div_le_one (by norm_num : (0:ℚ) < 16)]
    linarith

theorem gaze_pairs_bounds (f : FaceInfo)
    (h : ∀ e ∈ f.eye_state.getD [],
      0 ≤ e.getD 1 0 ∧ e.getD 1 0 ≤ 32 ∧ 0 ≤ e.getD 2 0 ∧ e.getD 2 0 ≤ 32) :
    ∀ p ∈ blendPairs (gazeBlendMsgs f), 0 ≤ p.2 ∧ p.2 ≤ 1 := by
  unfold gazeBlendMsgs
  cases hes : f.eye_state with
  | none => simp
  | some es =>
    rw [hes] at h
    simp only [Option.getD_some] at h
    by_cases h2 : 2 ≤ es.length
    · have hmem0 : es.getD 0 [] ∈ es := getD_mem_of_lt es 0 [] (by omega)
      have hmem1 : es.getD 1 [] ∈ es := getD_mem_of_lt es 1 [] (by omega)
      obtain ⟨hy0, hy0', hx0, hx0'⟩ := h _ hmem0
      obtain ⟨hy1, hy1', hx1, hx1'⟩ := h _ hmem1
      have hbx0 := normalizeGaze_bounds _ hx0 hx0'
      have hby0 := normalizeGaze_bounds _ hy0 hy0'
      have hbx1 := normalizeGaze_bounds _ hx1 hx1'
      have hby1 := normalizeGaze_bounds _ hy1 hy1'
      simp only [List.getD_eq_getElem?_getD] at hbx0 hby0 hbx1 hby1
      simp only [if_pos h2]
      intro p hp
      rw [blendPairs_append, List.mem_append] at hp
      rcases hp with hp | hp <;>
      split_ifs at hp with h3 <;>
      simp [send_blend_shape] at hp <;>
      rcases hp with hp | hp | hp | hp | hp | hp | hp | hp <;> subst hp <;>
      refine ⟨le_max_left 0 _, max_le zero_le_one ?_⟩ <;>
        dsimp only <;>
        linarith [hbx0.1, hbx0.2, hby0.1, hby0.2, hbx1.1, hbx1.2, hby1.1, hby1.2]
    · simp [if_neg h2]

/-! ### Address lemmas -/

theorem addr_headMsgs (f : FaceInfo) :
    ∀ m ∈ headMsgs f, Msg.addr m = "/VMC/Ext/Bone/Pos" := by
  unfold headMsgs
  cases f.euler with
  | none => simp
  | some e =>
    obtain ⟨p, y, r⟩ := e
    by_cases hs : f.success
    · intro m hm
      simp [hs, send_bone_transform] at hm
      rcases hm with rfl | rfl <;> rfl
    · simp [hs]

theorem addr_eyeBoneMsgs (f : FaceInfo) :
    ∀ m ∈ eyeBoneMsgs f, Msg.addr m = "/VMC/Ext/Bone/Pos" := by
  unfold eyeBoneMsgs
  cases f.eye_state with
  | none => simp
  | some es =>
    by_cases h2 : 2 ≤ es.length
    · simp only [if_pos h2]
      intro m hm
      rw [List.mem_append] at hm
      rcases hm with hm | hm <;> split_ifs at hm <;>
        simp [send_bone_transform] at hm <;> subst hm <;> rfl
    · simp [if_neg h2]

theorem addr_blinkMsgs (f : FaceInfo) :
    ∀ m ∈ blinkMsgs f, Msg.addr m = "/VMC/Ext/Blend/Val" := by
  unfold blinkMsgs
  cases f.eye_blink with
  | none => simp
  | some e =>
    obtain ⟨br, bl⟩ := e
    intro m hm
    simp [send_blend_shape] at hm
    rcases hm with rfl | rfl | rfl | rfl | rfl <;> rfl

theorem addr_mouthOpenMsgs (fs : List (String × ℚ)) :
    ∀ m ∈ mouthOpenMsgs fs, Msg.addr m = "/VMC/Ext/Blend/Val" := by
  unfold mouthOpenMsgs
  cases fs.lookup "mouth_open" with
  | none => simp
  | some v =>
    intro m hm
    simp [send_blend_shape] at hm
    rcases hm with rfl | rfl | rfl | rfl <;> rfl

theorem addr_mouthWideMsgs (fs : List (String × ℚ)) :
    ∀ m ∈ mouthWideMsgs fs, Msg.addr m = "/VMC/Ext/Blend/Val" := by
  unfold mouthWideMsgs
  cases fs.lookup "mouth_wide" with
  | none => simp
  | some v =>
    intro m hm
    dsimp only at hm
    split_ifs at hm <;> simp [send_blend_shape] at hm <;>
      rcases hm with rfl | rfl <;> rfl

theorem addr_mouthCornerLMsgs (fs : List (String × ℚ)) :
    ∀ m ∈ mouthCornerLMsgs fs, Msg.addr m = "/VMC/Ext/Blend/Val" := by
  unfold mouthCornerLMsgs
  cases fs.lookup "mouth_corner_updown_l" with
  | none => simp
  | some v =>
    intro m hm
    dsimp only at hm
    split_ifs at hm <;> simp [send_blend_shape] at hm <;> subst hm <;> rfl

theorem addr_mouthCornerRMsgs (fs : List (String × ℚ)) :
    ∀ m ∈ mouthCornerRMsgs fs, Msg.addr m = "/VMC/Ext/Blend/Val" := by
  unfold mouthCornerRMsgs
  cases fs.lookup "mouth_corner_updown_r" with
  | none => simp
  | some v =>
    intro m hm
    dsimp only at hm
    split_ifs at hm <;> simp [send_blend_shape] at hm <;> subst hm <;> rfl

theorem addr_eyebrowLMsgs (fs : List (String × ℚ)) :
    ∀ m ∈ eyebrowLMsgs fs, Msg.addr m = "/VMC/Ext/Blend/Val" := by
  unfold eyebrowLMsgs
  cases fs.lookup "eyebrow_updown_l" with
  | none => simp
  | some v =>
    intro m hm
    dsimp only at hm
    split_ifs at hm <;> simp [send_blend_shape] at hm <;> subst hm <;> rfl

theorem addr_eyebrowRMsgs (fs : List (String × ℚ)) :
    ∀ m ∈ eyebrowRMsgs fs, Msg.addr m = "/VMC/Ext/Blend/Val" := by
  unfold eyebrowRMsgs
  cases fs.lookup "eyebrow_updown_r" with
  | none => simp
  | some v =>
    intro m hm
    dsimp only at hm
    split_ifs at hm <;> simp [send_blend_shape] at hm <;> subst hm <;> rfl

theorem addr_featureMsgs (f : FaceInfo) :
    ∀ m ∈ featureMsgs f, Msg.addr m = "/VMC/Ext/Blend/Val" := by
  unfold featureMsgs
  cases f.current_features with
  | none => simp
  | some fs =>
    intro m hm
    simp only [List.mem_append] at hm
    rcases hm with ((((hm | hm) | hm) | hm) | hm) | hm
    · exact addr_mouthOpenMsgs fs m hm
    · exact addr_mouthWideMsgs fs m hm
    · exact addr_mouthCornerLMsgs fs m hm
    · exact addr_mouthCornerRMsgs fs m hm
    · exact addr_eyebrowLMsgs fs m hm
    · exact addr_eyebrowRMsgs fs m hm

theorem addr_gazeBlendMsgs (f : FaceInfo) :
    ∀ m ∈ gazeBlendMsgs f, Msg.addr m = "/VMC/Ext/Blend/Val" := by
  unfold gazeBlendMsgs
  cases f.eye_state with
  | none => simp
  | some es =>
    by_cases h2 : 2 ≤ es.length
    · simp only [if_pos h2]
      intro m hm
      rw [List.mem_append] at hm
      rcases hm with hm | hm <;> split_ifs at hm <;>
        simp [send_blend_shape] at hm <;>
        rcases hm with rfl | rfl | rfl | rfl | rfl | rfl | rfl | rfl <;> rfl
    · simp [if_neg h2]

/-- Every message of the five conditional blocks is a bone transform or
a blend value. -/
theorem addr_blocks (f : FaceInfo) :
    ∀ m ∈ headMsgs f ++ eyeBoneMsgs f ++ blinkMsgs f ++ featureMsgs f ++ gazeBlendMsgs f,
      Msg.addr m = "/VMC/Ext/Bone/Pos" ∨ Msg.addr m = "/VMC/Ext/Blend/Val" := by
  intro m hm
  simp only [List.mem_append] at hm
  rcases hm with (((hm | hm) | hm) | hm) | hm
  · exact Or.inl (addr_headMsgs f m hm)
  · exact Or.inl (addr_eyeBoneMsgs f m hm)
  · exact Or.inr (addr_blinkMsgs f m hm)
  · exact Or.inr (addr_featureMsgs f m hm)
  · exact Or.inr (addr_gazeBlendMsgs f m hm)

/-! ### Bone-name characterization -/

theorem boneNames_headMsgs_eq (f : FaceInfo) :
    boneNames (headMsgs f) = [] ∨ boneNames (headMsgs f) = ["Head", "Neck"] := by
  unfold headMsgs
  cases f.euler with
  | none => exact Or.inl rfl
  | some e =>
    obtain ⟨p, y, r⟩ := e
    by_cases hs : f.success
    · exact Or.inr (by simp [hs, send_bone_transform])
    · exact Or.inl (by simp [hs])

theorem mem_boneNames_eyeBoneMsgs (f : FaceInfo) :
    ("RightEye" ∈ boneNames (eyeBoneMsgs f) ↔ eyeBoneGuard f 0) ∧
    ("LeftEye" ∈ boneNames (eyeBoneMsgs f) ↔ eyeBoneGuard f 1) := by
  unfold eyeBoneMsgs
  cases hes : f.eye_state with
  | none => simp [eyeBoneGuard, hes]
  | some es =>
    by_cases h2 : 2 ≤ es.length
    · simp only [if_pos h2]
      by_cases hr : 3 ≤ (es[0]?.getD []).length <;>
        by_cases hl : 3 ≤ (es[1]?.getD []).length <;>
        simp [hr, hl, send_bone_transform, eyeBoneGuard, hes, h2,
          List.getD_eq_getElem?_getD]
    · simp [if_neg h2, eyeBoneGuard, hes, h2, List.getD_eq_getElem?_getD]

/-! ### Claim theorems -/

/-- C1 fails on the code as stated: the eye-gaze blend shapes are only
rectified with `max(0, ·)`, not clamped above, so the snapshot `c1Face`
with right-eye horizontal pixel offset 48 makes `send_tracking_data`
emit the `/VMC/Ext/Blend/Val` pair `eyeLookOutRight = 2`, and 2 is not
at most 1. -/
theorem c1_counterexample :
    ("eyeLookOutRight", (2 : ℚ)) ∈ blendPairs (send_tracking_data sender0 0 (some c1Face)).1 ∧
      ¬ ((2 : ℚ) ≤ 1) := by
  constructor
  · with_unfolding_all decide
  · norm_num

/-- C1 (amended): every `/VMC/Ext/Blend/Val` weight emitted by
`send_tracking_data` lies in `[0, 1]` provided every eye-state entry's
pixel offsets lie in the 32-pixel window `[0, 32]`; without that
proviso the gaze weights are only guaranteed non-negative. -/
theorem c1_blend_weights_in_unit (s : VMCSender) (now : ℚ) (f : FaceInfo)
    (h : ∀ e ∈ f.eye_state.getD [],
      0 ≤ e.getD 1 0 ∧ e.getD 1 0 ≤ 32 ∧ 0 ≤ e.getD 2 0 ∧ e.getD 2 0 ≤ 32) :
    ∀ p ∈ blendPairs (send_tracking_data s now (some f)).1, 0 ≤ p.2 ∧ p.2 ≤ 1 := by
  intro p hp
  rw [blendPairs_send, List.mem_append, List.mem_append] at hp
  rcases hp with hp | hp | hp
  · exact blink_pairs_bounds f p hp
  · exact feature_pairs_bounds f p hp
  · exact gaze_pairs_bounds f h p hp

/-- Witness for C1 (amended) at the in-window snapshot `c1wFace`: the
pair `eyeLookOutRight = 1/2` is emitted, and the theorem yields its
bounds. -/
theorem c1_blend_weights_in_unit_witness :
    ("eyeLookOutRight", (1/2 : ℚ)) ∈ blendPairs (send_tracking_data sender0 0 (some c1wFace)).1 ∧
      (0 ≤ (("eyeLookOutRight", (1/2 : ℚ))).2 ∧ (("eyeLookOutRight", (1/2 : ℚ))).2 ≤ 1) :=
  ⟨by with_unfolding_all decide,
   c1_blend_weights_in_unit sender0 0 c1wFace (by with_unfolding_all decide) _
     (by with_unfolding_all decide)⟩

/-- C2: for every snapshot, the emitted address sequence is
`/VMC/Ext/OK`, then a segment free of `/VMC/Ext/Blend/Apply` (hence
containing every `/VMC/Ext/Blend/Val` of the frame), then the single
final `/VMC/Ext/Blend/Apply`. -/
theorem c2_message_order (s : VMCSender) (now : ℚ) (f : FaceInfo) :
    ∃ pre, ((send_tracking_data s now (some f)).1).map Msg.addr =
        "/VMC/Ext/OK" :: (pre ++ ["/VMC/Ext/Blend/Apply"]) ∧
      "/VMC/Ext/Blend/Apply" ∉ pre := by
  refine ⟨"/VMC/Ext/T" :: "/VMC/Ext/Root/Pos" ::
    (headMsgs f ++ eyeBoneMsgs f ++ blinkMsgs f ++ featureMsgs f ++ gazeBlendMsgs f).map Msg.addr,
    ?_, ?_⟩
  · simp [send_tracking_data, send_available, send_time, send_root_transform,
      send_blend_shape_apply, Msg.addr]
  · intro hmem
    rcases List.mem_cons.mp hmem with h | hmem
    · exact absurd h (by decide)
    rcases List.mem_cons.mp hmem with h | hmem
    · exact absurd h (by decide)
    rw [List.mem_map] at hmem
    obtain ⟨m, hm, hma⟩ := hmem
    rcases addr_blocks f m hm with h | h <;> rw [h] at hma <;> exact absurd hma (by decide)

/-- C3 fails on the code as stated: for the unsuccessful all-absent
snapshot the emitted sequence is `OK`, `T`, `Root/Pos` and then the
unconditional `Blend/Apply`, so the call does not emit *only* the three
claimed messages. -/
theorem c3_counterexample :
    ((send_tracking_data sender0 0 (some c3Face)).1).map Msg.addr =
      ["/VMC/Ext/OK", "/VMC/Ext/T", "/VMC/Ext/Root/Pos", "/VMC/Ext/Blend/Apply"] := by
  with_unfolding_all decide

/-- C3 (amended): a snapshot with `success = false` and all optional
fields absent yields exactly `OK(0,3,1)`, `T`, `Root/Pos` and the final
`Blend/Apply`, with no `Bone/Pos` and no `Blend/Val` message. -/
theorem c3_failure_frame (s : VMCSender) (now : ℚ) (f : FaceInfo)
    (h1 : f.success = false) (h2 : f.euler = none) (h3 : f.translation = none)
    (h4 : f.eye_state = none) (h5 : f.eye_blink = none) (h6 : f.current_features = none) :
    (send_tracking_data s now (some f)).1 =
      [Msg.ok 0 3 1, Msg.time (now - s.start_time),
       Msg.rootPos "root" 0 0 0 0 0 0 1, Msg.blendApply] := by
  simp [send_tracking_data, send_available, send_time, send_root_transform,
    send_blend_shape_apply, headMsgs, eyeBoneMsgs, blinkMsgs, featureMsgs, gazeBlendMsgs,
    h1, h2, h4, h5, h6]

/-- Witness for C3 (amended) at `c3Face`. -/
theorem c3_failure_frame_witness :
    (send_tracking_data sender0 7 (some c3Face)).1 =
      [Msg.ok 0 3 1, Msg.time (7 - sender0.start_time),
       Msg.rootPos "root" 0 0 0 0 0 0 1, Msg.blendApply] :=
  c3_failure_frame sender0 7 c3Face rfl rfl rfl rfl rfl rfl

/-- C4 fails on the code as stated: the per-eye length checks are
independent, so for `c4Face` (right entry of length 2, left entry of
length 4) the `LeftEye` bone transform is still emitted while
`RightEye` is not. -/
theorem c4_counterexample :
    "LeftEye" ∈ boneNames (send_tracking_data sender0 0 (some c4Face)).1 ∧
      "RightEye" ∉ boneNames (send_tracking_data sender0 0 (some c4Face)).1 := by
  with_unfolding_all decide

/-- C4 (amended): each eye's bone transform is emitted exactly when
`eye_state` is present with at least two entries and *that eye's* entry
has length at least 3, independently per eye. -/
theorem c4_eye_bone_guard (s : VMCSender) (now : ℚ) (f : FaceInfo) :
    ("RightEye" ∈ boneNames (send_tracking_data s now (some f)).1 ↔ eyeBoneGuard f 0) ∧
    ("LeftEye" ∈ boneNames (send_tracking_data s now (some f)).1 ↔ eyeBoneGuard f 1) := by
  rw [boneNames_send]
  rcases boneNames_headMsgs_eq f with hh | hh <;> rw [hh]
  · simpa using mem_boneNames_eyeBoneMsgs f
  · constructor
    · simpa [List.mem_append] using (mem_boneNames_eyeBoneMsgs f).1
    · simpa [List.mem_append] using (mem_boneNames_eyeBoneMsgs f).2

/-- C5: with `eye_blink = (r, l)` and both opennesses in `[0, 1]`, the
frame contains the contiguous blend segment `eyeBlinkRight = 1 - r`,
`eyeBlinkLeft = 1 - l`, `Blink_R = 1 - r`, `Blink_L = 1 - l`,
`Blink = ((1 - r) + (1 - l)) / 2`. -/
theorem c5_blink_conversion (s : VMCSender) (now : ℚ) (f : FaceInfo) (r l : ℚ)
    (h : f.eye_blink = some (r, l)) (hr0 : 0 ≤ r) (hr1 : r ≤ 1) (hl0 : 0 ≤ l) (hl1 : l ≤ 1) :
    [("eyeBlinkRight", 1 - r), ("eyeBlinkLeft", 1 - l), ("Blink_R", 1 - r), ("Blink_L", 1 - l),
     ("Blink", ((1 - r) + (1 - l)) / 2)] <:+:
      blendPairs (send_tracking_data s now (some f)).1 := by
  have hbp : blendPairs (blinkMsgs f) =
      [("eyeBlinkRight", 1 - r), ("eyeBlinkLeft", 1 - l), ("Blink_R", 1 - r), ("Blink_L", 1 - l),
       ("Blink", ((1 - r) + (1 - l)) / 2)] := by
    unfold blinkMsgs
    rw [h]
    dsimp only
    rw [max_eq_right hr0, min_eq_right hr1, max_eq_right hl0, min_eq_right hl1]
    simp [send_blend_shape]
  rw [blendPairs_send, ← hbp]
  exact ⟨[], blendPairs (featureMsgs f) ++ blendPairs (gazeBlendMsgs f), by simp⟩

/-- Witness for C5 at the fully-open snapshot `c5Face`: all five blink
weights are 0. -/
theorem c5_blink_conversion_witness :
    [("eyeBlinkRight", (0 : ℚ)), ("eyeBlinkLeft", 0), ("Blink_R", 0), ("Blink_L", 0),
     ("Blink", 0)] <:+: blendPairs (send_tracking_data sender0 0 (some c5Face)).1 := by
  have h := c5_blink_conversion sender0 0 c5Face 1 1 rfl (by decide) (by decide)
    (by decide) (by decide)
  simpa using h

/-- C6 fails on the code as stated: for `mouth_open = 3/2` the frame's
blend payload is `jawOpen`, `A`, `Aa`, `A` — four messages with `A`
sent twice (line 198 repeats it), not three messages once each; every
value is clamped to 1. -/
theorem c6_counterexample :
    blendPairs (send_tracking_data sender0 0 (some c6Face)).1 =
      [("jawOpen", 1), ("A", 1), ("Aa", 1), ("A", 1)] := by
  with_unfolding_all decide

/-- C6 (amended): when `mouth_open = v` is present, the frame contains
the contiguous blend segment `jawOpen`, `A`, `Aa`, `A` (the name `A`
twice), each carrying `min 1 (max 0 v)`. -/
theorem c6_mouth_open (s : VMCSender) (now : ℚ) (f : FaceInfo)
    (fs : List (String × ℚ)) (v : ℚ) (hf : f.current_features = some fs)
    (hv : fs.lookup "mouth_open" = some v) :
    [("jawOpen", min 1 (max 0 v)), ("A", min 1 (max 0 v)), ("Aa", min 1 (max 0 v)),
     ("A", min 1 (max 0 v))] <:+: blendPairs (send_tracking_data s now (some f)).1 := by
  have hmo : blendPairs (mouthOpenMsgs fs) =
      [("jawOpen", min 1 (max 0 v)), ("A", min 1 (max 0 v)), ("Aa", min 1 (max 0 v)),
       ("A", min 1 (max 0 v))] := by
    unfold mouthOpenMsgs
    rw [hv]
    rfl
  have hfm : featureMsgs f =
      mouthOpenMsgs fs ++ mouthWideMsgs fs ++ mouthCornerLMsgs fs ++ mouthCornerRMsgs fs ++
        eyebrowLMsgs fs ++ eyebrowRMsgs fs := by
    unfold featureMsgs
    rw [hf]
  rw [blendPairs_send, hfm]
  refine ⟨blendPairs (blinkMsgs f),
    blendPairs (mouthWideMsgs fs) ++ blendPairs (mouthCornerLMsgs fs) ++
      blendPairs (mouthCornerRMsgs fs) ++ blendPairs (eyebrowLMsgs fs) ++
      blendPairs (eyebrowRMsgs fs) ++ blendPairs (gazeBlendMsgs f), ?_⟩
  simp [hmo, List.append_assoc]

/-- Witness for C6 (amended) at `c6Face`. -/
theorem c6_mouth_open_witness :
    [("jawOpen", min 1 (max 0 (3/2 : ℚ))), ("A", min 1 (max 0 (3/2 : ℚ))),
     ("Aa", min 1 (max 0 (3/2 : ℚ))), ("A", min 1 (max 0 (3/2 : ℚ)))] <:+:
      blendPairs (send_tracking_data sender0 0 (some c6Face)).1 :=
  c6_mouth_open sender0 0 c6Face [("mouth_open", 3/2)] (3/2) rfl rfl

/-- C7: for every pixel offset, the clamped gaze rotation degrees used
in the eye bone transforms lie in `[-15, 15]` horizontally and
`[-10, 10]` vertically. -/
theorem c7_gaze_degree_bounds (px py : ℚ) :
    ((-15 : ℚ) ≤ gazeDegH px ∧ gazeDegH px ≤ 15) ∧
      ((-10 : ℚ) ≤ gazeDegV py ∧ gazeDegV py ≤ 10) := by
  have hx1 : (-1 : ℚ) ≤ max (-1) (min 1 (normalizeGaze px)) := le_max_left _ _
  have hx2 : max (-1 : ℚ) (min 1 (normalizeGaze px)) ≤ 1 :=
    max_le (by norm_num) (min_le_left _ _)
  have hy1 : (-1 : ℚ) ≤ max (-1) (min 1 (normalizeGaze py)) := le_max_left _ _
  have hy2 : max (-1 : ℚ) (min 1 (normalizeGaze py)) ≤ 1 :=
    max_le (by norm_num) (min_le_left _ _)
  unfold gazeDegH gazeDegV
  refine ⟨⟨?_, ?_⟩, ?_, ?_⟩ <;> linarith

/-- C9: calling `send_tracking_data` with `face = None` emits no
message at all and leaves the sender state unchanged. -/
theorem c9_none_noop (s : VMCSender) (now : ℚ) :
    send_tracking_data s now none = ([], s) := rfl

/-- C10: every `/VMC/Ext/Blend/Val` message emitted by
`send_tracking_data` carries a non-negative weight. -/
theorem c10_blend_weights_nonneg (s : VMCSender) (now : ℚ) (f : FaceInfo) :
    ∀ p ∈ blendPairs (send_tracking_data s now (some f)).1, 0 ≤ p.2 := by
  intro p hp
  rw [blendPairs_send, List.mem_append, List.mem_append] at hp
  rcases hp with hp | hp | hp
  · exact (blink_pairs_bounds f p hp).1
  · exact (feature_pairs_bounds f p hp).1
  · exact gaze_pairs_nonneg f p hp

/-- Witness for C10 at the fully-open snapshot `c10Face`. -/
theorem c10_blend_weights_nonneg_witness :
    ("eyeBlinkRight", (0 : ℚ)) ∈ blendPairs (send_tracking_data sender0 0 (some c10Face)).1 ∧
      (0 : ℚ) ≤ (("eyeBlinkRight", (0 : ℚ))).2 :=
  ⟨by with_unfolding_all decide,
   c10_blend_weights_nonneg sender0 0 c10Face _ (by with_unfolding_all decide)⟩

end VMC
